import Mathlib

/-!
Verification of the protected dialer (`protect.go`) of LibSagerNetCore.

The Go code is shallowly embedded: every operating-system interaction
(`unix.Socket`, `unix.Connect`, `net.FilePacketConn`, `net.ResolveUDPAddr`,
`net.FileConn`) and the injected resolver are modelled as oracle functions
collected in environments, and every function additionally returns the list
of externally observable events it performed, so that statements such as
"no socket is created" or "candidates are attempted in order" become
statements about the produced event trace.
-/

namespace LibSagerNet

/-- A `net.IP` value: the byte slice of the address.  A 4-byte list is an
IPv4 address, anything else is treated as IPv6 (exactly as line 73 of
`protect.go` does via `len(destIp) != net.IPv4len`). -/
abbrev IP := List Nat

/-- `v2rayNet.Network`: the network kinds used by `protect.go`. -/
inductive Network
  | Unknown
  | TCP
  | UDP
  | UNIX
deriving DecidableEq, Repr

/-- `v2rayNet.Address`: either a literal IP or a domain name. -/
inductive Address
  | ipAddr (ip : IP)
  | domainAddr (d : String)
deriving DecidableEq, Repr

/-- `v2rayNet.Destination`: network kind, optional address (`nil` in Go is
`none`), and port. -/
structure Destination where
  network : Network
  address : Option Address
  port : Nat
deriving DecidableEq, Repr

/-- `unix.AF_INET` on Linux. -/
def AF_INET : Nat := 2

/-- `unix.AF_INET6` on Linux. -/
def AF_INET6 : Nat := 10

/-- `unix.SOCK_STREAM` on Linux. -/
def SOCK_STREAM : Nat := 1

/-- `unix.SOCK_DGRAM` on Linux. -/
def SOCK_DGRAM : Nat := 2

/-- `unix.IPPROTO_TCP`. -/
def IPPROTO_TCP : Nat := 6

/-- `unix.IPPROTO_UDP`. -/
def IPPROTO_UDP : Nat := 17

/-- `context.Context`, reduced to the data the dialer inspects: an optional
timeout in seconds. -/
structure Ctx where
  timeoutSeconds : Option Nat
deriving DecidableEq, Repr

/-- `context.Background()`. -/
def background : Ctx := ⟨none⟩

/-- `context.WithTimeout(parent, seconds)` (the dialer only ever uses the
resulting deadline, modelled as the timeout value). -/
def withTimeout (_parent : Ctx) (seconds : Nat) : Ctx := ⟨some seconds⟩

/-- The Go `copy(dst[:], src)` into a zero-initialised fixed array of
length `n`: the first `min n src.length` bytes come from `src`, the rest
stay zero. -/
def copyFixed (n : Nat) (src : List Nat) : List Nat :=
  (src ++ List.replicate n 0).take n

/-- `unix.Sockaddr` as built by `protectedDialer.dial`: either a
`SockaddrInet4` (4 address bytes) or a `SockaddrInet6` (16 address bytes),
each with a port. -/
inductive Sockaddr
  | inet4 (addr : List Nat) (port : Nat)
  | inet6 (addr : List Nat) (port : Nat)
deriving DecidableEq, Repr

/-- The errors `protectedDialer.Dial` can return.  Errors coming from
collaborators (resolver, syscalls) carry the collaborator's payload. -/
inductive DialError
  | resolverErr (msg : String)
  | errEmptyResponse
  | unknownNetwork
  | socketErr (errno : Nat)
  | protectFailed
  | connectErr (errno : Nat)
  | resolveUDPAddrErr (msg : String)
  | fileConnErr (errno : Nat)
deriving DecidableEq, Repr

/-- A `net.UDPAddr` as produced by `net.ResolveUDPAddr`. -/
structure UDPAddr where
  ip : IP
  port : Nat
deriving DecidableEq, Repr

/-- The connection object `Dial` returns: either an
`internet.PacketConnWrapper` holding the packet connection and its implicit
peer, or the `net.Conn` produced by `net.FileConn`.  Handles are named by
natural numbers. -/
inductive Conn
  | packetConnWrapper (pc : Nat) (dest : UDPAddr)
  | fileConn (c : Nat)
deriving DecidableEq, Repr

/-- Externally observable events of a dial.  `connectCall` records the
context argument of the call; `unix.Connect(fd, sockaddr)` takes no context
parameter, so the dialer always records `none` there, while
`internet.ApplySockopt(sockopt, destination, fd, ctx)` does receive a
context, recorded in `applySockoptCall`. -/
inductive Event
  | resolveCall (ctx : Ctx) (domain : String)
  | socketCall (af typ proto : Nat)
  | protectCall (fd : Nat)
  | applySockoptCall (fd : Nat) (ctx : Ctx)
  | connectCall (fd : Nat) (sa : Sockaddr) (ctx : Option Ctx)
  | closeCall (fd : Nat)
  | handoff (fd : Nat)
deriving DecidableEq, Repr

/-- The operating-system collaborators of `protect.go`, as oracles.
`socket` returns either an errno or a fresh descriptor; `connect` returns
`some errno` on failure and `none` on success; `filePacketConn` and
`fileConn` return either an errno or a handle; `resolveUDPAddr` is given
the data underlying the `destination.NetAddr()` string (the candidate IP
and port). -/
structure OsEnv where
  socket : Nat → Nat → Nat → Except Nat Nat
  connect : Nat → Sockaddr → Option Nat
  filePacketConn : Nat → Except Nat Nat
  resolveUDPAddr : IP → Nat → Except String UDPAddr
  fileConn : Nat → Except Nat Nat

/-- The `protectedDialer` struct: a protector and an injected resolver
(`func(ctx, domain) ([]net.IP, error)`). -/
structure protectedDialer where
  protector : Nat → Bool
  resolver : Ctx → String → Except String (List IP)

/-- `noopProtector.Protect`: always returns true. -/
def noopProtector : Nat → Bool := fun _ => true

/-- `destination.Address.IP()` as used on line 72 of `protect.go`.  The
inner `dial` is only ever called after `Dial` has stored a literal IP in
the destination, so the non-IP branches are unreachable there. -/
def destinationIP (d : Destination) : IP :=
  match d.address with
  | some (Address.ipAddr ip) => ip
  | _ => []

/-- `getFd(network, ipv6)` (lines 139-157): choose the address family from
`ipv6`, then the socket type and protocol from the network kind, and invoke
`unix.Socket`; an unrecognised network kind yields the "unknow network"
error without any socket call. -/
def getFd (os : OsEnv) (network : Network) (ipv6 : Bool) :
    Except DialError Nat × List Event :=
  let af := if !ipv6 then AF_INET else AF_INET6
  match network with
  | Network.TCP =>
    ((match os.socket af SOCK_STREAM IPPROTO_TCP with
      | Except.ok fd => Except.ok fd
      | Except.error e => Except.error (DialError.socketErr e)),
     [Event.socketCall af SOCK_STREAM IPPROTO_TCP])
  | Network.UDP =>
    ((match os.socket af SOCK_DGRAM IPPROTO_UDP with
      | Except.ok fd => Except.ok fd
      | Except.error e => Except.error (DialError.socketErr e)),
     [Event.socketCall af SOCK_DGRAM IPPROTO_UDP])
  | Network.UNIX =>
    ((match os.socket af SOCK_STREAM 0 with
      | Except.ok fd => Except.ok fd
      | Except.error e => Except.error (DialError.socketErr e)),
     [Event.socketCall af SOCK_STREAM 0])
  | Network.Unknown => (Except.error DialError.unknownNetwork, [])

/-- `protectedDialer.dial` (lines 69-137): one attempt against the literal
IP stored in `destination`.  Mirrors the Go body statement by statement:

* line 70 rebinds `ctx` to a fresh 10-second timeout over the background
  context, so the caller context parameter is unused from here on;
* `getFd`, then `Protect` (false closes the descriptor and fails),
  then `ApplySockopt` when a socket configuration is present (receiving the
  10-second context), then sockaddr construction and `unix.Connect`
  (failure closes the descriptor);
* `os.NewFile` returns `nil` only for an invalid descriptor and `fd` came
  from a successful socket call, so the file is non-nil and its deferred
  `Close` runs on every later return path;
* the `switch` on the network: in the UDP case the results of
  `net.FilePacketConn` are bound with `:=` to variables local to the case,
  so a `FilePacketConn` error never reaches the function's named return
  value `err`, and the function falls through to `return conn, nil` with
  `conn` still nil; a `ResolveUDPAddr` error is returned explicitly; in the
  default case `net.FileConn` assigns the named returns directly. -/
def protectedDialer.dial (dialer : protectedDialer) (os : OsEnv) (_ctx : Ctx)
    (_source : Option Address) (destination : Destination) (sockopt : Bool) :
    (Option Conn × Option DialError) × List Event :=
  let ctx := withTimeout background 10
  let destIp := destinationIP destination
  let ipv6 : Bool := destIp.length != 4
  let g := getFd os destination.network ipv6
  match g.1 with
  | Except.error e => ((none, some e), g.2)
  | Except.ok fd =>
    if !(dialer.protector fd) then
      ((none, some DialError.protectFailed),
       g.2 ++ [Event.protectCall fd, Event.closeCall fd])
    else
      let tr := g.2 ++ [Event.protectCall fd] ++
        (if sockopt then [Event.applySockoptCall fd ctx] else [])
      let sockaddr :=
        if !ipv6 then Sockaddr.inet4 (copyFixed 4 destIp) destination.port
        else Sockaddr.inet6 (copyFixed 16 destIp) destination.port
      let tr := tr ++ [Event.connectCall fd sockaddr none]
      match os.connect fd sockaddr with
      | some errno =>
        ((none, some (DialError.connectErr errno)), tr ++ [Event.closeCall fd])
      | none =>
        match destination.network with
        | Network.UDP =>
          match os.filePacketConn fd with
          | Except.ok pc =>
            match os.resolveUDPAddr destIp destination.port with
            | Except.error e =>
              ((none, some (DialError.resolveUDPAddrErr e)),
               tr ++ [Event.closeCall fd])
            | Except.ok destAddr =>
              ((some (Conn.packetConnWrapper pc destAddr), none),
               tr ++ [Event.handoff fd, Event.closeCall fd])
          | Except.error _ =>
            ((none, none), tr ++ [Event.closeCall fd])
        | _ =>
          match os.fileConn fd with
          | Except.error e =>
            ((none, some (DialError.fileConnErr e)), tr ++ [Event.closeCall fd])
          | Except.ok c =>
            ((some (Conn.fileConn c), none),
             tr ++ [Event.handoff fd, Event.closeCall fd])

/-- The candidate loop of `Dial` (lines 53-64).  `first` records whether
this is the first iteration (`i == 0` in Go): from the second iteration on,
a nil error from the previous attempt breaks out of the loop; otherwise the
loop stores the candidate IP into the destination and dials it, carrying
the attempt's connection and error into the next iteration. -/
def protectedDialer.dialLoop (dialer : protectedDialer) (os : OsEnv) (ctx : Ctx)
    (source : Option Address) (destination : Destination) (sockopt : Bool)
    (first : Bool) (ips : List IP) (conn : Option Conn) (err : Option DialError) :
    (Option Conn × Option DialError) × List Event :=
  match ips with
  | [] => ((conn, err), [])
  | ip :: rest =>
    if !first && err.isNone then
      ((conn, err), [])
    else
      let a := protectedDialer.dial dialer os ctx source
        { destination with address := some (Address.ipAddr ip) } sockopt
      let r := protectedDialer.dialLoop dialer os ctx source destination sockopt
        false rest a.1.1 a.1.2
      (r.1, a.2 ++ r.2)

/-- The outcome of `Dial`: either the Go `panic` on an invalid destination
or a returned (connection, error) pair. -/
inductive DialResult
  | panicked (msg : String)
  | returned (conn : Option Conn) (err : Option DialError)
deriving DecidableEq, Repr

/-- `protectedDialer.Dial` (lines 35-67): panic when the network kind is
unknown or the address is nil; resolve a domain address through the
injected resolver with the caller's context (an error is returned as is, a
nil error with an empty list becomes `dns.ErrEmptyResponse`); a literal IP
becomes the single candidate; then run the candidate loop. -/
def protectedDialer.Dial (dialer : protectedDialer) (os : OsEnv) (ctx : Ctx)
    (source : Option Address) (destination : Destination) (sockopt : Bool) :
    DialResult × List Event :=
  match destination.network, destination.address with
  | Network.Unknown, _ => (DialResult.panicked "connect to invalid destination", [])
  | _, none => (DialResult.panicked "connect to invalid destination", [])
  | _, some (Address.domainAddr d) =>
    match dialer.resolver ctx d with
    | Except.error e =>
      (DialResult.returned none (some (DialError.resolverErr e)),
       [Event.resolveCall ctx d])
    | Except.ok ips =>
      if ips.isEmpty then
        (DialResult.returned none (some DialError.errEmptyResponse),
         [Event.resolveCall ctx d])
      else
        let r := protectedDialer.dialLoop dialer os ctx source destination sockopt
          true ips none none
        (DialResult.returned r.1.1 r.1.2, Event.resolveCall ctx d :: r.2)
  | _, some (Address.ipAddr ip) =>
    let r := protectedDialer.dialLoop dialer os ctx source destination sockopt
      true [ip] none none
    (DialResult.returned r.1.1 r.1.2, r.2)

/-- The result and trace of the attempt `Dial` makes for one candidate
`ip`: the destination's address is overwritten with the candidate before
the inner `dial` runs (line 62). -/
def attemptResult (dialer : protectedDialer) (os : OsEnv) (ctx : Ctx)
    (source : Option Address) (destination : Destination) (sockopt : Bool)
    (ip : IP) : (Option Conn × Option DialError) × List Event :=
  protectedDialer.dial dialer os ctx source
    { destination with address := some (Address.ipAddr ip) } sockopt

/-- Whether the attempt for candidate `ip` ends in an error. -/
def attemptFails (dialer : protectedDialer) (os : OsEnv) (ctx : Ctx)
    (source : Option Address) (destination : Destination) (sockopt : Bool)
    (ip : IP) : Bool :=
  (attemptResult dialer os ctx source destination sockopt ip).1.2.isSome

/-- The prefix of the candidate list that actually gets attempted: every
candidate is attempted, and iteration continues past a candidate exactly
when its attempt failed. -/
def attemptedPrefix (fail : IP → Bool) : List IP → List IP
  | [] => []
  | ip :: rest => if fail ip then ip :: attemptedPrefix fail rest else [ip]

/-- Number of `socketCall` events in a trace. -/
def countSocketCalls (tr : List Event) : Nat :=
  tr.countP (fun e => match e with
    | Event.socketCall _ _ _ => true
    | _ => false)

end LibSagerNet

namespace LibSagerNet

lemma dialLoop_nil (dialer : protectedDialer) (os : OsEnv) (ctx : Ctx)
    (source : Option Address) (destination : Destination) (sockopt : Bool)
    (first : Bool) (conn : Option Conn) (err : Option DialError) :
    protectedDialer.dialLoop dialer os ctx source destination sockopt first [] conn err =
      ((conn, err), []) := rfl

lemma dialLoop_false_of_isSome (dialer : protectedDialer) (os : OsEnv) (ctx : Ctx)
    (source : Option Address) (destination : Destination) (sockopt : Bool)
    (ips : List IP) (conn : Option Conn) (err : Option DialError)
    (h : err.isSome) :
    protectedDialer.dialLoop dialer os ctx source destination sockopt false ips conn err =
      protectedDialer.dialLoop dialer os ctx source destination sockopt true ips conn err := by
  cases ips with
  | nil => rfl
  | cons ip rest =>
    have hn : err.isNone = false := by cases err <;> simp_all
    simp only [protectedDialer.dialLoop, hn, Bool.not_false, Bool.not_true,
      Bool.and_false, Bool.false_and, Bool.true_and, Bool.and_self]

lemma dialLoop_cons_true (dialer : protectedDialer) (os : OsEnv) (ctx : Ctx)
    (source : Option Address) (destination : Destination) (sockopt : Bool)
    (ip : IP) (rest : List IP) (conn : Option Conn) (err : Option DialError) :
    protectedDialer.dialLoop dialer os ctx source destination sockopt true (ip :: rest) conn err =
      ((protectedDialer.dialLoop dialer os ctx source destination sockopt false rest
          (attemptResult dialer os ctx source destination sockopt ip).1.1
          (attemptResult dialer os ctx source destination sockopt ip).1.2).1,
       (attemptResult dialer os ctx source destination sockopt ip).2 ++
         (protectedDialer.dialLoop dialer os ctx source destination sockopt false rest
            (attemptResult dialer os ctx source destination sockopt ip).1.1
            (attemptResult dialer os ctx source destination sockopt ip).1.2).2) := by
  simp [protectedDialer.dialLoop, attemptResult]

lemma dialLoop_cons_false_break (dialer : protectedDialer) (os : OsEnv) (ctx : Ctx)
    (source : Option Address) (destination : Destination) (sockopt : Bool)
    (ip : IP) (rest : List IP) (conn : Option Conn) (err : Option DialError)
    (h : err.isNone) :
    protectedDialer.dialLoop dialer os ctx source destination sockopt false (ip :: rest) conn err =
      ((conn, err), []) := by
  simp [protectedDialer.dialLoop, h]

lemma attemptedPrefix_ne_nil (f : IP → Bool) (ip : IP) (rest : List IP) :
    attemptedPrefix f (ip :: rest) ≠ [] := by
  simp only [attemptedPrefix]
  split <;> simp

lemma attemptedPrefix_cons (f : IP → Bool) (a : IP) (l : List IP) :
    attemptedPrefix f (a :: l) = a :: (if f a then attemptedPrefix f l else []) := by
  simp only [attemptedPrefix]
  split <;> simp_all

lemma dialLoop_spec (dialer : protectedDialer) (os : OsEnv) (ctx : Ctx)
    (source : Option Address) (destination : Destination) (sockopt : Bool) :
    ∀ (rest : List IP) (ip : IP) (conn : Option Conn) (err : Option DialError),
    protectedDialer.dialLoop dialer os ctx source destination sockopt true (ip :: rest) conn err =
      ((attemptResult dialer os ctx source destination sockopt
          ((attemptedPrefix (attemptFails dialer os ctx source destination sockopt)
              (ip :: rest)).getLastD [])).1,
       ((attemptedPrefix (attemptFails dialer os ctx source destination sockopt)
            (ip :: rest)).map
          (fun j => (attemptResult dialer os ctx source destination sockopt j).2)).flatten) := by
  intro rest
  induction rest with
  | nil =>
    intro ip conn err
    rw [dialLoop_cons_true, dialLoop_nil, attemptedPrefix_cons]
    by_cases hf : attemptFails dialer os ctx source destination sockopt ip <;>
      simp [hf, attemptedPrefix]
  | cons r rs ih =>
    intro ip conn err
    rw [dialLoop_cons_true, attemptedPrefix_cons]
    by_cases hf : attemptFails dialer os ctx source destination sockopt ip
    · have hsome : (attemptResult dialer os ctx source destination sockopt ip).1.2.isSome := hf
      rw [dialLoop_false_of_isSome _ _ _ _ _ _ _ _ _ hsome, ih r _ _]
      obtain ⟨x, L, hL⟩ : ∃ x L,
          attemptedPrefix (attemptFails dialer os ctx source destination sockopt) (r :: rs) =
            x :: L :=
        ⟨r, _, attemptedPrefix_cons _ r rs⟩
      simp [hf, hL, List.getLastD_cons]
    · have hnone : (attemptResult dialer os ctx source destination sockopt ip).1.2.isNone := by
        unfold attemptFails at hf
        cases h2 : (attemptResult dialer os ctx source destination sockopt ip).1.2 <;> simp_all
      rw [dialLoop_cons_false_break _ _ _ _ _ _ _ _ _ _ hnone]
      simp [hf]

end LibSagerNet

namespace LibSagerNet

lemma resolveCall_not_mem_dial (dialer : protectedDialer) (os : OsEnv) (ctx : Ctx)
    (source : Option Address) (destination : Destination) (sockopt : Bool)
    (c : Ctx) (d : String) :
    Event.resolveCall c d ∉ (protectedDialer.dial dialer os ctx source destination sockopt).2 := by
  unfold protectedDialer.dial getFd
  rcases destination with ⟨net, addr, port⟩
  cases net <;> simp only <;> repeat' split
  all_goals simp_all

lemma applySockopt_ctx_of_mem_dial (dialer : protectedDialer) (os : OsEnv) (ctx : Ctx)
    (source : Option Address) (destination : Destination) (sockopt : Bool)
    (fd : Nat) (c : Ctx)
    (h : Event.applySockoptCall fd c ∈
      (protectedDialer.dial dialer os ctx source destination sockopt).2) :
    c = withTimeout background 10 := by
  unfold protectedDialer.dial getFd at h
  rcases destination with ⟨net, addr, port⟩
  cases net <;> simp only at h <;> revert h <;> repeat' split
  all_goals simp_all

lemma connect_ctx_of_mem_dial (dialer : protectedDialer) (os : OsEnv) (ctx : Ctx)
    (source : Option Address) (destination : Destination) (sockopt : Bool)
    (fd : Nat) (sa : Sockaddr) (oc : Option Ctx)
    (h : Event.connectCall fd sa oc ∈
      (protectedDialer.dial dialer os ctx source destination sockopt).2) :
    oc = none := by
  unfold protectedDialer.dial getFd at h
  rcases destination with ⟨net, addr, port⟩
  cases net <;> simp only at h <;> revert h <;> repeat' split
  all_goals simp_all

lemma dial_countSocketCalls_le_one (dialer : protectedDialer) (os : OsEnv) (ctx : Ctx)
    (source : Option Address) (destination : Destination) (sockopt : Bool) :
    countSocketCalls (protectedDialer.dial dialer os ctx source destination sockopt).2 ≤ 1 := by
  unfold protectedDialer.dial getFd
  rcases destination with ⟨net, addr, port⟩
  cases net <;> simp only <;> repeat' split
  all_goals simp_all [countSocketCalls]

lemma dial_close_of_created (dialer : protectedDialer) (os : OsEnv) (ctx : Ctx)
    (source : Option Address) (destination : Destination) (sockopt : Bool) (fd : Nat)
    (h : (getFd os destination.network ((destinationIP destination).length != 4)).1 =
      Except.ok fd) :
    Event.closeCall fd ∈ (protectedDialer.dial dialer os ctx source destination sockopt).2 := by
  rcases destination with ⟨net, addr, port⟩
  unfold getFd at h
  unfold protectedDialer.dial getFd
  cases net <;> simp only at h ⊢ <;> revert h <;> repeat' split
  all_goals simp_all

lemma dial_handoff_count (dialer : protectedDialer) (os : OsEnv) (ctx : Ctx)
    (source : Option Address) (destination : Destination) (sockopt : Bool) (fd : Nat)
    (h : (getFd os destination.network ((destinationIP destination).length != 4)).1 =
      Except.ok fd) :
    (protectedDialer.dial dialer os ctx source destination sockopt).2.countP
        (fun ev => ev == Event.handoff fd) =
      if (protectedDialer.dial dialer os ctx source destination sockopt).1.1.isSome
      then 1 else 0 := by
  rcases destination with ⟨net, addr, port⟩
  unfold getFd at h
  unfold protectedDialer.dial getFd
  cases net <;> simp only at h ⊢ <;> revert h <;> repeat' split
  all_goals simp_all

lemma dial_handoff_mem (dialer : protectedDialer) (os : OsEnv) (ctx : Ctx)
    (source : Option Address) (destination : Destination) (sockopt : Bool) (fd : Nat)
    (h : Event.handoff fd ∈ (protectedDialer.dial dialer os ctx source destination sockopt).2) :
    (getFd os destination.network ((destinationIP destination).length != 4)).1 =
      Except.ok fd := by
  rcases destination with ⟨net, addr, port⟩
  unfold protectedDialer.dial getFd at h
  unfold getFd
  cases net <;> simp only at h ⊢ <;> revert h <;> repeat' split
  all_goals simp_all

lemma dial_protect_false (dialer : protectedDialer) (os : OsEnv) (ctx : Ctx)
    (source : Option Address) (destination : Destination) (sockopt : Bool) (fd : Nat)
    (h : (getFd os destination.network ((destinationIP destination).length != 4)).1 =
      Except.ok fd)
    (hp : dialer.protector fd = false) :
    protectedDialer.dial dialer os ctx source destination sockopt =
      ((none, some DialError.protectFailed),
       (getFd os destination.network ((destinationIP destination).length != 4)).2 ++
         [Event.protectCall fd, Event.closeCall fd]) := by
  rcases destination with ⟨net, addr, port⟩
  unfold getFd at h
  unfold protectedDialer.dial getFd
  cases net <;> simp only at h ⊢ <;> revert h <;> repeat' split
  all_goals simp_all
  all_goals (rintro rfl; simp_all)

lemma Dial_domain_ok (dialer : protectedDialer) (os : OsEnv) (ctx : Ctx)
    (source : Option Address) (destination : Destination) (sockopt : Bool)
    (d : String) (ips : List IP)
    (hn : destination.network ≠ Network.Unknown)
    (ha : destination.address = some (Address.domainAddr d))
    (hr : dialer.resolver ctx d = Except.ok ips)
    (hne : ips ≠ []) :
    protectedDialer.Dial dialer os ctx source destination sockopt =
      (DialResult.returned
        (protectedDialer.dialLoop dialer os ctx source destination sockopt true ips none none).1.1
        (protectedDialer.dialLoop dialer os ctx source destination sockopt true ips none none).1.2,
       Event.resolveCall ctx d ::
         (protectedDialer.dialLoop dialer os ctx source destination sockopt true ips none none).2) := by
  rcases destination with ⟨net, addr, port⟩
  simp only at ha hn
  subst ha
  cases net
  · exact absurd rfl hn
  all_goals
    cases ips with
    | nil => exact absurd rfl hne
    | cons ip rest => simp [protectedDialer.Dial, hr]

lemma Dial_ip (dialer : protectedDialer) (os : OsEnv) (ctx : Ctx)
    (source : Option Address) (destination : Destination) (sockopt : Bool) (ip : IP)
    (hn : destination.network ≠ Network.Unknown)
    (ha : destination.address = some (Address.ipAddr ip)) :
    protectedDialer.Dial dialer os ctx source destination sockopt =
      (DialResult.returned
        (attemptResult dialer os ctx source destination sockopt ip).1.1
        (attemptResult dialer os ctx source destination sockopt ip).1.2,
       (attemptResult dialer os ctx source destination sockopt ip).2) := by
  rcases destination with ⟨net, addr, port⟩
  simp only at ha hn
  subst ha
  cases net
  · exact absurd rfl hn
  all_goals
    simp only [protectedDialer.Dial]
    rw [dialLoop_cons_true, dialLoop_nil]
    simp

end LibSagerNet

namespace LibSagerNet

lemma attemptedPrefix_of_all_fail (f : IP → Bool) :
    ∀ l : List IP, (∀ x ∈ l, f x = true) → attemptedPrefix f l = l := by
  intro l
  induction l with
  | nil => intro _; rfl
  | cons a t ih =>
    intro h
    rw [attemptedPrefix_cons, h a (List.mem_cons_self a t), if_pos rfl]
    rw [ih (fun x hx => h x (List.mem_cons_of_mem a hx))]

lemma getLastD_mem {α : Type _} : ∀ (l : List α), l ≠ [] → ∀ d : α, l.getLastD d ∈ l := by
  intro l
  induction l with
  | nil => intro h; exact absurd rfl h
  | cons a t ih =>
    intro _ d
    rw [List.getLastD_cons]
    cases t with
    | nil => simp
    | cons b u => exact List.mem_cons_of_mem a (ih (by simp) a)

lemma dial_countSocketCalls_eq_one (dialer : protectedDialer) (os : OsEnv) (ctx : Ctx)
    (source : Option Address) (destination : Destination) (sockopt : Bool)
    (hn : destination.network ≠ Network.Unknown) :
    countSocketCalls (protectedDialer.dial dialer os ctx source destination sockopt).2 = 1 := by
  unfold protectedDialer.dial getFd
  rcases destination with ⟨net, addr, port⟩
  simp only at hn
  cases net
  · exact absurd rfl hn
  all_goals (simp only; repeat' split)
  all_goals simp_all [countSocketCalls]

lemma Dial_domain_head (dialer : protectedDialer) (os : OsEnv) (ctx : Ctx)
    (source : Option Address) (destination : Destination) (sockopt : Bool) (d : String)
    (hn : destination.network ≠ Network.Unknown)
    (ha : destination.address = some (Address.domainAddr d)) :
    (protectedDialer.Dial dialer os ctx source destination sockopt).2.head? =
      some (Event.resolveCall ctx d) := by
  rcases destination with ⟨net, addr, port⟩
  simp only at ha hn
  subst ha
  cases net
  · exact absurd rfl hn
  all_goals
    cases hres : dialer.resolver ctx d with
    | error e => simp [protectedDialer.Dial, hres]
    | ok l =>
      cases l with
      | nil => simp [protectedDialer.Dial, hres]
      | cons ip rest => simp [protectedDialer.Dial, hres]

end LibSagerNet

namespace LibSagerNet

/-- An operating-system environment in which every call succeeds: sockets
get descriptor 3, connects succeed, wrapping succeeds with handle 7. -/
def okOs : OsEnv where
  socket := fun _ _ _ => Except.ok 3
  connect := fun _ _ => none
  filePacketConn := fun _ => Except.ok 7
  resolveUDPAddr := fun ip port => Except.ok ⟨ip, port⟩
  fileConn := fun fd => Except.ok fd

/-- A dialer with the no-op protector whose resolver yields the two
candidates 10.0.0.1 and 10.0.0.2. -/
def okDialer : protectedDialer where
  protector := noopProtector
  resolver := fun _ _ => Except.ok [[10, 0, 0, 1], [10, 0, 0, 2]]

/-- A stream destination for the domain name `example.test`, port 443. -/
def domainDest : Destination := ⟨Network.TCP, some (Address.domainAddr "example.test"), 443⟩

/-- Like `okOs` except connecting to 10.0.0.1 fails with errno 111. -/
def c1Os : OsEnv :=
  { okOs with connect := fun _ sa =>
      match sa with
      | Sockaddr.inet4 a _ => if a = [10, 0, 0, 1] then some 111 else none
      | _ => none }

/-- C1: for a domain destination whose resolver returns a non-empty list,
`Dial` attempts the candidates strictly in resolver order, continuing past
a candidate exactly when its attempt failed (`attemptedPrefix`), and both
the returned connection and the returned error are those of the last
attempted candidate — so the first success stops the iteration and, when
every attempt fails, the last address's error is returned. -/
theorem C1_domain_attempt_order_and_last_error
    (dialer : protectedDialer) (os : OsEnv) (ctx : Ctx) (source : Option Address)
    (destination : Destination) (sockopt : Bool) (d : String) (ips : List IP)
    (hn : destination.network ≠ Network.Unknown)
    (ha : destination.address = some (Address.domainAddr d))
    (hr : dialer.resolver ctx d = Except.ok ips)
    (hne : ips ≠ []) :
    protectedDialer.Dial dialer os ctx source destination sockopt =
      (DialResult.returned
        (attemptResult dialer os ctx source destination sockopt
          ((attemptedPrefix (attemptFails dialer os ctx source destination sockopt)
              ips).getLastD [])).1.1
        (attemptResult dialer os ctx source destination sockopt
          ((attemptedPrefix (attemptFails dialer os ctx source destination sockopt)
              ips).getLastD [])).1.2,
       Event.resolveCall ctx d ::
         ((attemptedPrefix (attemptFails dialer os ctx source destination sockopt)
              ips).map
            (fun j => (attemptResult dialer os ctx source destination sockopt j).2)).flatten) := by
  obtain ⟨ip, rest, rfl⟩ := List.exists_cons_of_ne_nil hne
  rw [Dial_domain_ok dialer os ctx source destination sockopt d (ip :: rest) hn ha hr hne,
    dialLoop_spec dialer os ctx source destination sockopt rest ip none none]

/-- C1 witness: with candidates 10.0.0.1 (unreachable) and 10.0.0.2
(reachable), exactly two attempts happen in order and the second one's
connection is returned. -/
theorem C1_witness :
    protectedDialer.Dial okDialer c1Os background none domainDest false =
      (DialResult.returned (some (Conn.fileConn 3)) none,
       [Event.resolveCall background "example.test",
        Event.socketCall AF_INET SOCK_STREAM IPPROTO_TCP,
        Event.protectCall 3,
        Event.connectCall 3 (Sockaddr.inet4 [10, 0, 0, 1] 443) none,
        Event.closeCall 3,
        Event.socketCall AF_INET SOCK_STREAM IPPROTO_TCP,
        Event.protectCall 3,
        Event.connectCall 3 (Sockaddr.inet4 [10, 0, 0, 2] 443) none,
        Event.handoff 3,
        Event.closeCall 3]) :=
  (C1_domain_attempt_order_and_last_error okDialer c1Os background none domainDest false
    "example.test" [[10, 0, 0, 1], [10, 0, 0, 2]] (by decide) rfl rfl (by decide)).trans
    (by decide)

/-- A dialer whose resolver fails. -/
def errDialer : protectedDialer where
  protector := noopProtector
  resolver := fun _ _ => Except.error "dns failure"

/-- A dialer whose resolver succeeds with zero addresses. -/
def emptyDialer : protectedDialer where
  protector := noopProtector
  resolver := fun _ _ => Except.ok []

/-- C2: for a domain destination, a resolver error is returned as is with
only the resolver call in the trace (no socket, no connect attempt); a
successful resolution with zero addresses yields the distinct
empty-response error, again with no socket and no connect attempt. -/
theorem C2_resolver_error_and_empty_response
    (dialer : protectedDialer) (os : OsEnv) (ctx : Ctx) (source : Option Address)
    (destination : Destination) (sockopt : Bool) (d : String)
    (hn : destination.network ≠ Network.Unknown)
    (ha : destination.address = some (Address.domainAddr d)) :
    (∀ e, dialer.resolver ctx d = Except.error e →
      protectedDialer.Dial dialer os ctx source destination sockopt =
        (DialResult.returned none (some (DialError.resolverErr e)),
         [Event.resolveCall ctx d])) ∧
    (dialer.resolver ctx d = Except.ok [] →
      protectedDialer.Dial dialer os ctx source destination sockopt =
        (DialResult.returned none (some DialError.errEmptyResponse),
         [Event.resolveCall ctx d])) ∧
    (∀ e, DialError.errEmptyResponse ≠ DialError.resolverErr e) := by
  obtain ⟨net, addr, port⟩ := destination
  simp only at ha hn
  subst ha
  refine ⟨fun e he => ?_, fun he => ?_, fun e => by simp⟩
  · cases net
    · exact absurd rfl hn
    all_goals simp [protectedDialer.Dial, he]
  · cases net
    · exact absurd rfl hn
    all_goals simp [protectedDialer.Dial, he]

/-- C2 witness: a failing resolver aborts the dial with its error; an empty
resolution aborts with the empty-response error; both traces hold only the
resolver call. -/
theorem C2_witness :
    protectedDialer.Dial errDialer okOs background none domainDest false =
      (DialResult.returned none (some (DialError.resolverErr "dns failure")),
       [Event.resolveCall background "example.test"]) ∧
    protectedDialer.Dial emptyDialer okOs background none domainDest false =
      (DialResult.returned none (some DialError.errEmptyResponse),
       [Event.resolveCall background "example.test"]) :=
  ⟨(C2_resolver_error_and_empty_response errDialer okOs background none domainDest false
      "example.test" (by decide) rfl).1 "dns failure" rfl,
   (C2_resolver_error_and_empty_response emptyDialer okOs background none domainDest false
      "example.test" (by decide) rfl).2.1 rfl⟩

/-- C3: the socket is created with the address family determined by the IP
byte length (4 bytes gives `AF_INET`, anything else `AF_INET6`, via the
`length != 4` test of line 73) and the type/protocol determined by the
network kind: TCP gives a stream socket with the TCP protocol, UDP a
datagram socket with the UDP protocol, UNIX a stream socket with protocol
0, and the unknown kind gives the "unknow network" error with an empty
trace (no socket call). -/
theorem C3_socket_family_type_protocol (os : OsEnv) (ip : IP) :
    getFd os Network.TCP (ip.length != 4) =
      ((match os.socket (if ip.length = 4 then AF_INET else AF_INET6)
          SOCK_STREAM IPPROTO_TCP with
        | Except.ok fd => Except.ok fd
        | Except.error e => Except.error (DialError.socketErr e)),
       [Event.socketCall (if ip.length = 4 then AF_INET else AF_INET6)
          SOCK_STREAM IPPROTO_TCP]) ∧
    getFd os Network.UDP (ip.length != 4) =
      ((match os.socket (if ip.length = 4 then AF_INET else AF_INET6)
          SOCK_DGRAM IPPROTO_UDP with
        | Except.ok fd => Except.ok fd
        | Except.error e => Except.error (DialError.socketErr e)),
       [Event.socketCall (if ip.length = 4 then AF_INET else AF_INET6)
          SOCK_DGRAM IPPROTO_UDP]) ∧
    getFd os Network.UNIX (ip.length != 4) =
      ((match os.socket (if ip.length = 4 then AF_INET else AF_INET6)
          SOCK_STREAM 0 with
        | Except.ok fd => Except.ok fd
        | Except.error e => Except.error (DialError.socketErr e)),
       [Event.socketCall (if ip.length = 4 then AF_INET else AF_INET6)
          SOCK_STREAM 0]) ∧
    getFd os Network.Unknown (ip.length != 4) =
      (Except.error DialError.unknownNetwork, []) := by
  by_cases h : ip.length = 4 <;>
    simp [getFd, h]

end LibSagerNet

namespace LibSagerNet

/-- Like `okOs` except resolving the peer address of 10.0.0.1 fails, so
wrapping the connected descriptor into a packet connection fails for the
first candidate only. -/
def c4Os : OsEnv :=
  { okOs with resolveUDPAddr := fun ip port =>
      if ip = [10, 0, 0, 1] then Except.error "bad address"
      else Except.ok ⟨ip, port⟩ }

/-- A datagram destination for the domain name `example.test`, port 53. -/
def udpDomainDest : Destination := ⟨Network.UDP, some (Address.domainAddr "example.test"), 53⟩

/-- C4 counterexample: with two candidates where the first connects but its
peer-address resolution (the wrapping step) fails, `Dial` does NOT abort
the whole dial with that wrapping error: a second socket is created (two
socket calls in the trace) and the second candidate's connection is
returned. -/
theorem C4_counterexample_wrap_failure_retried :
    (protectedDialer.Dial okDialer c4Os background none udpDomainDest false).1 =
      DialResult.returned (some (Conn.packetConnWrapper 7 ⟨[10, 0, 0, 2], 53⟩)) none ∧
    countSocketCalls (protectedDialer.Dial okDialer c4Os background none udpDomainDest false).2 = 2 := by
  constructor
  · decide
  · decide

/-- C4 amended: a wrapping failure (datagram peer-address resolution error)
makes the attempt return that error, but the dial is not aborted: with two
candidates where the first attempt fails with a wrapping error, the second
candidate is attempted and the dial's outcome is the second attempt's
outcome — the wrapping error is returned only when it occurs on the last
attempted candidate. -/
theorem C4_wrap_failure_aborts_only_attempt
    (dialer : protectedDialer) (os : OsEnv) (ctx : Ctx) (source : Option Address)
    (destination : Destination) (sockopt : Bool) (d : String) (ip1 ip2 : IP) (e : String)
    (hn : destination.network ≠ Network.Unknown)
    (ha : destination.address = some (Address.domainAddr d))
    (hr : dialer.resolver ctx d = Except.ok [ip1, ip2])
    (h1 : (attemptResult dialer os ctx source destination sockopt ip1).1.2 =
      some (DialError.resolveUDPAddrErr e)) :
    protectedDialer.Dial dialer os ctx source destination sockopt =
      (DialResult.returned
        (attemptResult dialer os ctx source destination sockopt ip2).1.1
        (attemptResult dialer os ctx source destination sockopt ip2).1.2,
       Event.resolveCall ctx d ::
         ((attemptResult dialer os ctx source destination sockopt ip1).2 ++
          (attemptResult dialer os ctx source destination sockopt ip2).2)) := by
  have hF1 : attemptFails dialer os ctx source destination sockopt ip1 = true := by
    unfold attemptFails
    rw [h1]
    rfl
  rw [Dial_domain_ok dialer os ctx source destination sockopt d [ip1, ip2] hn ha hr
      (by simp),
    dialLoop_spec dialer os ctx source destination sockopt [ip2] ip1 none none]
  simp [attemptedPrefix, hF1, List.getLastD_cons]

/-- C4 witness for the amended statement, at the counterexample input: the
wrap failure on 10.0.0.1 leads to an attempt on 10.0.0.2 whose packet
connection is returned. -/
theorem C4_witness :
    protectedDialer.Dial okDialer c4Os background none udpDomainDest false =
      (DialResult.returned (some (Conn.packetConnWrapper 7 ⟨[10, 0, 0, 2], 53⟩)) none,
       [Event.resolveCall background "example.test",
        Event.socketCall AF_INET SOCK_DGRAM IPPROTO_UDP,
        Event.protectCall 3,
        Event.connectCall 3 (Sockaddr.inet4 [10, 0, 0, 1] 53) none,
        Event.closeCall 3,
        Event.socketCall AF_INET SOCK_DGRAM IPPROTO_UDP,
        Event.protectCall 3,
        Event.connectCall 3 (Sockaddr.inet4 [10, 0, 0, 2] 53) none,
        Event.handoff 3,
        Event.closeCall 3]) :=
  (C4_wrap_failure_aborts_only_attempt okDialer c4Os background none udpDomainDest false
    "example.test" [10, 0, 0, 1] [10, 0, 0, 2] "bad address"
    (by decide) rfl rfl (by decide)).trans (by decide)

/-- C5: per attempt, at most one socket call happens; when a descriptor is
created (the socket call succeeded with `fd`), the attempt's trace always
contains a close of `fd`, and contains exactly one handoff of `fd` to a
connection wrapper precisely when the attempt returns a connection;
conversely a handoff only ever involves the descriptor the attempt
created.  So no attempt returns leaving an unclosed, un-owned
descriptor. -/
theorem C5_descriptor_closed_or_handed_off
    (dialer : protectedDialer) (os : OsEnv) (ctx : Ctx) (source : Option Address)
    (destination : Destination) (sockopt : Bool) :
    countSocketCalls (protectedDialer.dial dialer os ctx source destination sockopt).2 ≤ 1 ∧
    (∀ fd,
      (getFd os destination.network ((destinationIP destination).length != 4)).1 =
        Except.ok fd →
      Event.closeCall fd ∈
        (protectedDialer.dial dialer os ctx source destination sockopt).2 ∧
      (protectedDialer.dial dialer os ctx source destination sockopt).2.countP
          (fun ev => ev == Event.handoff fd) =
        (if (protectedDialer.dial dialer os ctx source destination sockopt).1.1.isSome
         then 1 else 0)) ∧
    (∀ fd,
      Event.handoff fd ∈ (protectedDialer.dial dialer os ctx source destination sockopt).2 →
      (getFd os destination.network ((destinationIP destination).length != 4)).1 =
        Except.ok fd) :=
  ⟨dial_countSocketCalls_le_one dialer os ctx source destination sockopt,
   fun fd h =>
     ⟨dial_close_of_created dialer os ctx source destination sockopt fd h,
      dial_handoff_count dialer os ctx source destination sockopt fd h⟩,
   fun fd h => dial_handoff_mem dialer os ctx source destination sockopt fd h⟩

/-- A stream destination carrying the literal IP 10.0.0.1, port 80. -/
def ipDest : Destination := ⟨Network.TCP, some (Address.ipAddr [10, 0, 0, 1]), 80⟩

/-- C5 witness: in the all-success environment, descriptor 3 is created,
closed, and handed off exactly once. -/
theorem C5_witness :
    Event.closeCall 3 ∈ (protectedDialer.dial okDialer okOs background none ipDest false).2 ∧
    (protectedDialer.dial okDialer okOs background none ipDest false).2.countP
        (fun ev => ev == Event.handoff 3) =
      (if (protectedDialer.dial okDialer okOs background none ipDest false).1.1.isSome
       then 1 else 0) :=
  (C5_descriptor_closed_or_handed_off okDialer okOs background none ipDest false).2.1 3 rfl

end LibSagerNet

namespace LibSagerNet

/-- C6: when, for every candidate, the socket is created and the protector
rejects the new descriptor, every attempt closes its descriptor and fails
with the protection error, every candidate is still attempted (the failure
aborts only the current attempt), and `Dial` returns the protection error
exactly because no candidates remain. -/
theorem C6_protect_false_closes_and_continues
    (dialer : protectedDialer) (os : OsEnv) (ctx : Ctx) (source : Option Address)
    (destination : Destination) (sockopt : Bool) (d : String) (ips : List IP)
    (hn : destination.network ≠ Network.Unknown)
    (ha : destination.address = some (Address.domainAddr d))
    (hr : dialer.resolver ctx d = Except.ok ips)
    (hne : ips ≠ [])
    (hp : ∀ ip ∈ ips, ∃ fd,
      (getFd os destination.network (ip.length != 4)).1 = Except.ok fd ∧
      dialer.protector fd = false) :
    (∀ ip ∈ ips,
      (attemptResult dialer os ctx source destination sockopt ip).1 =
        (none, some DialError.protectFailed) ∧
      ∃ fd, Event.protectCall fd ∈ (attemptResult dialer os ctx source destination sockopt ip).2 ∧
        Event.closeCall fd ∈ (attemptResult dialer os ctx source destination sockopt ip).2) ∧
    protectedDialer.Dial dialer os ctx source destination sockopt =
      (DialResult.returned none (some DialError.protectFailed),
       Event.resolveCall ctx d ::
         (ips.map (fun j => (attemptResult dialer os ctx source destination sockopt j).2)).flatten) := by
  have hAttempt : ∀ ip ∈ ips,
      (attemptResult dialer os ctx source destination sockopt ip).1 =
        (none, some DialError.protectFailed) ∧
      ∃ fd, Event.protectCall fd ∈ (attemptResult dialer os ctx source destination sockopt ip).2 ∧
        Event.closeCall fd ∈ (attemptResult dialer os ctx source destination sockopt ip).2 := by
    intro ip hip
    obtain ⟨fd, hg, hfp⟩ := hp ip hip
    have hg2 : (getFd os
        ({ destination with address := some (Address.ipAddr ip) } : Destination).network
        ((destinationIP { destination with address := some (Address.ipAddr ip) }).length != 4)).1 =
        Except.ok fd := by
      simpa [destinationIP] using hg
    have hd := dial_protect_false dialer os ctx source
      { destination with address := some (Address.ipAddr ip) } sockopt fd hg2 hfp
    unfold attemptResult
    rw [hd]
    exact ⟨rfl, ⟨fd, by simp, by simp⟩⟩
  have hFail : ∀ ip ∈ ips,
      attemptFails dialer os ctx source destination sockopt ip = true := by
    intro ip hip
    have h2 : (attemptResult dialer os ctx source destination sockopt ip).1.2 =
        some DialError.protectFailed := by
      rw [(hAttempt ip hip).1]
    simp [attemptFails, h2]
  refine ⟨hAttempt, ?_⟩
  obtain ⟨ip0, rest, rfl⟩ := List.exists_cons_of_ne_nil hne
  rw [Dial_domain_ok dialer os ctx source destination sockopt d (ip0 :: rest) hn ha hr hne,
    dialLoop_spec dialer os ctx source destination sockopt rest ip0 none none,
    attemptedPrefix_of_all_fail _ _ hFail]
  have hlast := (hAttempt _ (getLastD_mem (ip0 :: rest) (by simp) [])).1
  have h1 : (attemptResult dialer os ctx source destination sockopt
      ((ip0 :: rest).getLastD [])).1.1 = none := by rw [hlast]
  have h2 : (attemptResult dialer os ctx source destination sockopt
      ((ip0 :: rest).getLastD [])).1.2 = some DialError.protectFailed := by rw [hlast]
  rw [h1, h2]

/-- A dialer whose protector rejects every descriptor. -/
def rejectDialer : protectedDialer where
  protector := fun _ => false
  resolver := fun _ _ => Except.ok [[10, 0, 0, 1], [10, 0, 0, 2]]

/-- C6 witness: with a protector that always refuses, both candidates are
attempted, each descriptor is closed, and `Dial` ends with the protection
error. -/
theorem C6_witness :
    protectedDialer.Dial rejectDialer okOs background none domainDest false =
      (DialResult.returned none (some DialError.protectFailed),
       [Event.resolveCall background "example.test",
        Event.socketCall AF_INET SOCK_STREAM IPPROTO_TCP,
        Event.protectCall 3,
        Event.closeCall 3,
        Event.socketCall AF_INET SOCK_STREAM IPPROTO_TCP,
        Event.protectCall 3,
        Event.closeCall 3]) :=
  ((C6_protect_false_closes_and_continues rejectDialer okOs background none domainDest false
      "example.test" [[10, 0, 0, 1], [10, 0, 0, 2]] (by decide) rfl rfl (by decide)
      (by
        intro ip hip
        simp only [List.mem_cons, List.mem_singleton] at hip
        rcases hip with rfl | hip
        · exact ⟨3, rfl, rfl⟩
        · rcases hip with rfl | hip
          · exact ⟨3, rfl, rfl⟩
          · exact absurd hip (List.not_mem_nil ip))).2).trans (by decide)

/-- C7: for a destination carrying a literal IP, `Dial` is exactly one
attempt on that address: its result and trace are the attempt's result and
trace, the resolver is never invoked (no resolve event in the trace), and
exactly one socket call happens. -/
theorem C7_literal_ip_single_attempt_no_resolve
    (dialer : protectedDialer) (os : OsEnv) (ctx : Ctx) (source : Option Address)
    (destination : Destination) (sockopt : Bool) (ip : IP)
    (hn : destination.network ≠ Network.Unknown)
    (ha : destination.address = some (Address.ipAddr ip)) :
    protectedDialer.Dial dialer os ctx source destination sockopt =
      (DialResult.returned
        (attemptResult dialer os ctx source destination sockopt ip).1.1
        (attemptResult dialer os ctx source destination sockopt ip).1.2,
       (attemptResult dialer os ctx source destination sockopt ip).2) ∧
    (∀ c dd, Event.resolveCall c dd ∉
      (protectedDialer.Dial dialer os ctx source destination sockopt).2) ∧
    countSocketCalls (protectedDialer.Dial dialer os ctx source destination sockopt).2 = 1 := by
  have hD := Dial_ip dialer os ctx source destination sockopt ip hn ha
  refine ⟨hD, fun c dd => ?_, ?_⟩
  · rw [hD]
    unfold attemptResult
    exact resolveCall_not_mem_dial dialer os ctx source _ sockopt c dd
  · rw [hD]
    unfold attemptResult
    exact dial_countSocketCalls_eq_one dialer os ctx source _ sockopt (by simpa using hn)

/-- C7 witness: dialling the literal IP 10.0.0.1 makes exactly one attempt,
with no resolver call in the trace. -/
theorem C7_witness :
    protectedDialer.Dial okDialer okOs background none ipDest false =
      (DialResult.returned (some (Conn.fileConn 3)) none,
       [Event.socketCall AF_INET SOCK_STREAM IPPROTO_TCP,
        Event.protectCall 3,
        Event.connectCall 3 (Sockaddr.inet4 [10, 0, 0, 1] 80) none,
        Event.handoff 3,
        Event.closeCall 3]) :=
  ((C7_literal_ip_single_attempt_no_resolve okDialer okOs background none ipDest false
      [10, 0, 0, 1] (by decide) rfl).1).trans (by decide)

end LibSagerNet

namespace LibSagerNet

/-- C8 counterexample: in a concrete attempt, the socket-option application
receives the fresh 10-second context, but the raw connect call of the same
attempt carries no context at all — in particular not the 10-second one —
because `unix.Connect(fd, sockaddr)` has no context parameter.  So the
10-second timeout does not bound the raw connect call. -/
theorem C8_counterexample_connect_not_under_timeout :
    Event.applySockoptCall 3 (withTimeout background 10) ∈
      (protectedDialer.dial okDialer okOs background none ipDest true).2 ∧
    Event.connectCall 3 (Sockaddr.inet4 [10, 0, 0, 1] 80) none ∈
      (protectedDialer.dial okDialer okOs background none ipDest true).2 ∧
    Event.connectCall 3 (Sockaddr.inet4 [10, 0, 0, 1] 80) (some (withTimeout background 10)) ∉
      (protectedDialer.dial okDialer okOs background none ipDest true).2 := by
  refine ⟨by decide, by decide, by decide⟩

/-- C8 amended: every attempt's behaviour is completely independent of the
caller-supplied context (the attempt builds its own context); any
socket-option application in an attempt's trace carries the fixed
10-second timeout context built from the background context; the raw
connect call carries no context (it is not bounded by the attempt
timeout); and for a domain destination the dial starts with a resolver call
under the caller's context — the caller's context governs only
resolution. -/
theorem C8_fixed_timeout_scope
    (dialer : protectedDialer) (os : OsEnv) (ctx ctx2 : Ctx) (source : Option Address)
    (destination : Destination) (sockopt : Bool) :
    protectedDialer.dial dialer os ctx source destination sockopt =
      protectedDialer.dial dialer os ctx2 source destination sockopt ∧
    (∀ fd c, Event.applySockoptCall fd c ∈
        (protectedDialer.dial dialer os ctx source destination sockopt).2 →
      c = withTimeout background 10) ∧
    (∀ fd sa oc, Event.connectCall fd sa oc ∈
        (protectedDialer.dial dialer os ctx source destination sockopt).2 →
      oc = none) ∧
    (∀ d, destination.network ≠ Network.Unknown →
      destination.address = some (Address.domainAddr d) →
      (protectedDialer.Dial dialer os ctx source destination sockopt).2.head? =
        some (Event.resolveCall ctx d)) :=
  ⟨rfl,
   fun fd c h => applySockopt_ctx_of_mem_dial dialer os ctx source destination sockopt fd c h,
   fun fd sa oc h => connect_ctx_of_mem_dial dialer os ctx source destination sockopt fd sa oc h,
   fun d hn ha => Dial_domain_head dialer os ctx source destination sockopt d hn ha⟩

/-- C8 witness: at a concrete attempt with socket options present, the
recorded socket-option context is the 10-second one, and a concrete domain
dial's trace begins with the resolver call under the caller's context. -/
theorem C8_witness :
    Ctx.mk (some 10) = withTimeout background 10 ∧
    (protectedDialer.Dial okDialer okOs background none domainDest true).2.head? =
      some (Event.resolveCall background "example.test") :=
  ⟨(C8_fixed_timeout_scope okDialer okOs background ⟨some 99⟩ none ipDest true).2.1 3
      ⟨some 10⟩ (by decide),
   (C8_fixed_timeout_scope okDialer okOs background ⟨some 99⟩ none domainDest true).2.2.2
      "example.test" (by decide) rfl⟩

/-- C9: an unknown network kind or a nil address makes `Dial` panic (the Go
`panic("connect to invalid destination")`) with an empty trace: no
resolver call and no socket call happen. -/
theorem C9_invalid_destination_panics
    (dialer : protectedDialer) (os : OsEnv) (ctx : Ctx) (source : Option Address)
    (destination : Destination) (sockopt : Bool)
    (h : destination.network = Network.Unknown ∨ destination.address = none) :
    protectedDialer.Dial dialer os ctx source destination sockopt =
      (DialResult.panicked "connect to invalid destination", []) := by
  obtain ⟨net, addr, port⟩ := destination
  simp only at h
  rcases h with rfl | rfl
  · cases addr with
    | none => rfl
    | some a => cases a <;> rfl
  · cases net <;> rfl

/-- A destination with the unknown network kind. -/
def unknownDest : Destination := ⟨Network.Unknown, some (Address.ipAddr [10, 0, 0, 1]), 80⟩

/-- C9 witness: the unknown network kind panics with an empty trace. -/
theorem C9_witness :
    protectedDialer.Dial okDialer okOs background none unknownDest false =
      (DialResult.panicked "connect to invalid destination", []) :=
  C9_invalid_destination_panics okDialer okOs background none unknownDest false (Or.inl rfl)

/-- Like `okOs` except converting the connected descriptor into a packet
connection (`net.FilePacketConn`) fails with errno 9. -/
def c10Os : OsEnv := { okOs with filePacketConn := fun _ => Except.error 9 }

/-- A datagram destination carrying the literal IP 10.0.0.1, port 53. -/
def udpIpDest : Destination := ⟨Network.UDP, some (Address.ipAddr [10, 0, 0, 1]), 53⟩

/-- C10: for a datagram destination whose connected descriptor fails
conversion into a packet connection, `Dial` returns a nil connection
together with a nil error (the conversion error is bound to a variable
local to the datagram branch and never reaches the returned error); the
descriptor is still closed by the deferred file close. -/
theorem C10_packet_conversion_error_yields_nil_nil :
    protectedDialer.Dial okDialer c10Os background none udpIpDest false =
      (DialResult.returned none none,
       [Event.socketCall AF_INET SOCK_DGRAM IPPROTO_UDP,
        Event.protectCall 3,
        Event.connectCall 3 (Sockaddr.inet4 [10, 0, 0, 1] 53) none,
        Event.closeCall 3]) := by
  decide

end LibSagerNet
